import Mathlib

/-!
Verification of the sentiment-analysis core of src/app.py.

The Python functions are shallowly embedded as Lean definitions:
Python floats become exact rationals, Python values that may or may not be
strings become the inductive type PyVal, code that can raise an exception
returns Except, and the external Hugging Face classifier is a parameter of
type String to Except of a list of lists of label and score pairs, matching
the shape the pipeline returns.
-/

/-- A Python value as far as the application inspects one: a string, an
integer, a float (exact rational here), or None. -/
inductive PyVal where
  | vstr (s : String)
  | vint (n : Int)
  | vrat (q : ℚ)
  | vnone
deriving DecidableEq, Repr

/-- Python truthiness for the values of PyVal: empty string, zero and None
are falsy. -/
def pyFalsy : PyVal → Bool
  | .vstr s => s == ""
  | .vint n => n == 0
  | .vrat q => q == 0
  | .vnone => true

/-- Python str() on the values of PyVal, as pandas astype(str) applies it. -/
def pyStr : PyVal → String
  | .vstr s => s
  | .vint n => toString n
  | .vrat q => toString q
  | .vnone => "None"

/-- The probability triple the scorer synthesizes for display. -/
structure ProbTriple where
  negative : ℚ
  neutral : ℚ
  positive : ℚ
deriving DecidableEq, Repr

/-- The triple analyze_sentiment returns: label, normalized score, probs. -/
structure SentimentResult where
  label : String
  normalizedScore : ℚ
  probs : ProbTriple
deriving DecidableEq, Repr

/-- The fixed neutral fallback of analyze_sentiment, returned both for blank
input and when the classifier call fails (src/app.py lines 89 and 123). -/
def neutralDefault : SentimentResult :=
  ⟨"neutral", 0.5, ⟨0.33, 0.34, 0.33⟩⟩

/-- Python str.strip() with no argument: drop leading and trailing
whitespace, modelled on the character list. -/
def pyStrip (s : String) : String :=
  String.mk
    (((s.data.dropWhile Char.isWhitespace).reverse.dropWhile
        Char.isWhitespace).reverse)

/-- Python single-character str.replace(old, new), on the character list. -/
def replaceChar (old new : Char) (s : String) : String :=
  String.mk (s.data.map (fun c => if c = old then new else c))

/-- Modelled from the spec: the external emoji library demojize table, a
stable mapping from emoji glyphs to their canonical colon-free names; the
library itself is a third-party dependency, not code under src/. -/
def emojiTable : List (Char × String) :=
  [('😍', "smiling_face_with_heart-eyes"),
   ('😀', "grinning_face"),
   ('😕', "confused_face")]

/-- Modelled from the spec: emoji.demojize on the character list replaces
every emoji glyph found in the table by its name wrapped in colons and
leaves every other character alone. -/
def demojizeChars (table : List (Char × String)) : List Char → List Char
  | [] => []
  | c :: cs =>
    match table.find? (fun p => p.1 == c) with
    | some p => (":" ++ p.2 ++ ":").data ++ demojizeChars table cs
    | none => c :: demojizeChars table cs

/-- Modelled from the spec: emoji.demojize on a string. -/
def demojize (table : List (Char × String)) (s : String) : String :=
  String.mk (demojizeChars table s.data)

/-- src/app.py preprocess_emoji_text: non-strings become the empty string;
strings have emoji demojized, then every colon and every underscore is
replaced by a space. -/
def preprocess_emoji_text (text : PyVal) : String :=
  match text with
  | .vstr s => replaceChar '_' ' ' (replaceChar ':' ' ' (demojize emojiTable s))
  | _ => ""

/-- src/app.py map_score_to_sentiment: score at most 2 is negative, score at
least 4 is positive, anything strictly between is neutral. -/
def map_score_to_sentiment (score : ℚ) : String :=
  if score ≤ 2 then "negative"
  else if score ≥ 4 then "positive"
  else "neutral"

/-- Helper of pySplit: walk the characters keeping the reversed current
word, emitting a word at each whitespace run boundary. -/
def pySplitAux : List Char → List Char → List String
  | [], acc => if acc.isEmpty then [] else [String.mk acc.reverse]
  | c :: cs, acc =>
    if c.isWhitespace then
      if acc.isEmpty then pySplitAux cs []
      else String.mk acc.reverse :: pySplitAux cs []
    else pySplitAux cs (c :: acc)

/-- Python str.split() with no argument: split on whitespace runs, dropping
empty pieces. -/
def pySplit (s : String) : List String :=
  pySplitAux s.data []

/-- A nonempty all-digit character list read as a natural number. -/
def pyParseDigits (cs : List Char) : Option Nat :=
  if cs.isEmpty then none
  else if cs.all Char.isDigit then
    some (cs.foldl (fun n c => n * 10 + (c.toNat - 48)) 0)
  else none

/-- Python int(w) on a word: an optional sign followed by digits, anything
else raises ValueError, modelled as none. -/
def pyToInt (w : String) : Option Int :=
  match w.data with
  | '-' :: rest => (pyParseDigits rest).map (fun n => -(n : Int))
  | '+' :: rest => (pyParseDigits rest).map (fun n => (n : Int))
  | cs => (pyParseDigits cs).map (fun n => (n : Int))

/-- int(label.split()[0]) from the loop of analyze_sentiment: the first
whitespace-delimited token of the label parsed as an integer, none when the
token list is empty or the token is not an integer literal. -/
def starsOfLabel (label : String) : Option Int :=
  match (pySplit label).head? with
  | some w => pyToInt w
  | none => none

/-- The accumulation loop of analyze_sentiment: score starts at 0 and each
record adds stars times probability; the first unparseable label raises,
modelled as Except.error. -/
def weightedScore (results : List (String × ℚ)) : Except Unit ℚ :=
  results.foldlM
    (fun acc r =>
      match starsOfLabel r.1 with
      | some n => Except.ok (acc + (n : ℚ) * r.2)
      | none => Except.error ())
    0

/-- The probability synthesis of analyze_sentiment (src/app.py lines
113-118), keyed on the sentiment string. -/
def synthesizeProbabilities (sentiment : String) (normalized_score : ℚ) :
    ProbTriple :=
  if sentiment = "negative" then
    ⟨0.6 + (1 - normalized_score) * 0.3, 0.3 - (1 - normalized_score) * 0.2, 0.1⟩
  else if sentiment = "positive" then
    ⟨0.1, 0.3 - normalized_score * 0.2, 0.6 + normalized_score * 0.3⟩
  else
    ⟨0.3, 0.4, 0.3⟩

/-- The normal-path tail of analyze_sentiment once the weighted score is
known: normalize, map to a label, synthesize the probabilities. -/
def mkResult (score : ℚ) : SentimentResult :=
  let normalized_score := (score - 1) / 4
  let sentiment := map_score_to_sentiment score
  ⟨sentiment, normalized_score, synthesizeProbabilities sentiment normalized_score⟩

/-- The external classifier handle: given the processed text it either
raises or returns one list of label and score records per input, of which
analyze_sentiment reads entry 0. -/
abbrev Classifier := String → Except Unit (List (List (String × ℚ)))

/-- The body of the try block of analyze_sentiment: invoke the classifier,
take results[0], run the weighted-score loop, build the result; any failure
on the way is an error the surrounding except clause will catch. -/
def classifier_pipeline (clf : Classifier) (processed : String) :
    Except Unit SentimentResult :=
  match clf processed with
  | .error e => .error e
  | .ok outer =>
    match outer.head? with
    | none => .error ()
    | some results =>
      match weightedScore results with
      | .error e => .error e
      | .ok score => .ok (mkResult score)

/-- src/app.py analyze_sentiment. The blank-input test
(not text or len(text.strip()) == 0) runs before the try block, so a truthy
non-string raises AttributeError there, modelled as Except.error; string
input never escapes with an error because the try block catches everything
and falls back to neutralDefault. -/
def analyze_sentiment (clf : Classifier) (text : PyVal) :
    Except Unit SentimentResult :=
  if pyFalsy text then .ok neutralDefault
  else
    match text with
    | .vstr s =>
      if pyStrip s == "" then .ok neutralDefault
      else
        match classifier_pipeline clf (preprocess_emoji_text (.vstr s)) with
        | .ok r => .ok r
        | .error _ => .ok neutralDefault
    | _ => .error ()

/-- The value analyze_sentiment yields on a string input, as a total
function; the lemma analyze_sentiment_vstr shows the agreement. -/
def analyze_str (clf : Classifier) (s : String) : SentimentResult :=
  if pyStrip s == "" then neutralDefault
  else
    match classifier_pipeline clf (preprocess_emoji_text (.vstr s)) with
    | .ok r => r
    | .error _ => neutralDefault

/-- A pandas DataFrame as far as process_file manipulates one: an ordered
association list from column name to the list of the column values, rows
aligned by position. -/
abbrev Cols := List (String × List PyVal)

/-- Reading a column: the first entry with the given name (empty when the
column is absent; process_file only reads columns it knows exist). -/
def getCol (cols : Cols) (name : String) : List PyVal :=
  match cols.find? (fun p => p.1 == name) with
  | some p => p.2
  | none => []

/-- Column assignment df[name] = vals: overwrite the column when the name is
already present, otherwise append it as a new last column. -/
def setCol (cols : Cols) (name : String) (vals : List PyVal) : Cols :=
  if cols.any (fun p => p.1 == name) then
    cols.map (fun p => if p.1 == name then (name, vals) else p)
  else cols ++ [(name, vals)]

/-- src/app.py process_file from the point where the comment column is
identified (file parsing and column detection are the excluded surrounding
application): coerce the comment column with astype(str), score every
comment in order, and assign the five result columns. -/
def process_file_core (clf : Classifier) (cols : Cols) (comment_col : String) :
    Except Unit Cols := do
  let comments := (getCol cols comment_col).map pyStr
  let cols1 := setCol cols comment_col (comments.map PyVal.vstr)
  let results ← comments.mapM (fun c => analyze_sentiment clf (PyVal.vstr c))
  let cols2 := setCol cols1 "sentiment" (results.map (fun r => PyVal.vstr r.label))
  let cols3 := setCol cols2 "confidence"
    (results.map (fun r => PyVal.vrat r.normalizedScore))
  let cols4 := setCol cols3 "prob_negative"
    (results.map (fun r => PyVal.vrat r.probs.negative))
  let cols5 := setCol cols4 "prob_neutral"
    (results.map (fun r => PyVal.vrat r.probs.neutral))
  pure (setCol cols5 "prob_positive"
    (results.map (fun r => PyVal.vrat r.probs.positive)))

/-- The output table as the spec describes it: the input columns with the
comment column coerced to strings, followed by exactly five new columns
holding, for row i, the scoring results of the row i comment. -/
def process_file_spec (clf : Classifier) (cols : Cols) (comment_col : String) :
    Cols :=
  let comments := (getCol cols comment_col).map pyStr
  let rs := comments.map (analyze_str clf)
  setCol cols comment_col (comments.map PyVal.vstr) ++
    [("sentiment", rs.map (fun r => PyVal.vstr r.label)),
     ("confidence", rs.map (fun r => PyVal.vrat r.normalizedScore)),
     ("prob_negative", rs.map (fun r => PyVal.vrat r.probs.negative)),
     ("prob_neutral", rs.map (fun r => PyVal.vrat r.probs.neutral)),
     ("prob_positive", rs.map (fun r => PyVal.vrat r.probs.positive))]

/-- The sum of the three components of a probability triple. -/
def probSum (p : ProbTriple) : ℚ :=
  p.negative + p.neutral + p.positive

deriving instance DecidableEq for Except

/-- A deterministic classifier stub: every text gets half 4 stars and half
5 stars, a weighted score of 4.5. -/
def clfTwoHalves : Classifier :=
  fun _ => Except.ok [[("4 stars", mkRat 1 2), ("5 stars", mkRat 1 2)]]

theorem analyze_sentiment_vstr (clf : Classifier) (s : String) :
    analyze_sentiment clf (.vstr s) = .ok (analyze_str clf s) := by
  unfold analyze_sentiment analyze_str
  by_cases h : s = ""
  · subst h
    simp [pyFalsy, show pyStrip "" = "" by decide]
  · have hf : pyFalsy (.vstr s) = false := by
      simp [pyFalsy, h]
    rw [hf]
    simp only [Bool.false_eq_true, if_false]
    by_cases ht : pyStrip s = ""
    · simp [ht]
    · simp only [ht, beq_iff_eq, if_neg ht]
      cases classifier_pipeline clf (preprocess_emoji_text (.vstr s)) <;> simp

theorem pyFalsy_vstr_false {s : String} (h : s ≠ "") :
    pyFalsy (.vstr s) = false := by
  simp [pyFalsy, h]

theorem ne_empty_of_strip_ne {s : String} (h : pyStrip s ≠ "") : s ≠ "" := by
  intro he
  exact h (by rw [he]; decide)

theorem analyze_sentiment_not_blank (clf : Classifier) (s : String)
    (h : pyStrip s ≠ "") :
    analyze_sentiment clf (.vstr s) =
      match classifier_pipeline clf (preprocess_emoji_text (.vstr s)) with
      | .ok r => .ok r
      | .error _ => .ok neutralDefault := by
  unfold analyze_sentiment
  rw [pyFalsy_vstr_false (ne_empty_of_strip_ne h)]
  simp [h]

/-- C2: map_score_to_sentiment returns negative exactly on scores at most 2,
positive exactly on scores at least 4, neutral exactly on the open band in
between; the boundaries 2.0 and 4.0 are included in negative and positive. -/
theorem c2_classify_boundaries :
    ∀ s : ℚ,
      (map_score_to_sentiment s = "negative" ↔ s ≤ 2) ∧
      (map_score_to_sentiment s = "positive" ↔ 4 ≤ s) ∧
      (map_score_to_sentiment s = "neutral" ↔ 2 < s ∧ s < 4) ∧
      map_score_to_sentiment 2 = "negative" ∧
      map_score_to_sentiment 4 = "positive" := by
  intro s
  have h24 : ¬ ((4:ℚ) ≤ 2) := by norm_num
  refine ⟨?_, ?_, ?_, ?_, ?_⟩
  · unfold map_score_to_sentiment
    split_ifs with h1 h2
    · simp [h1]
    · constructor
      · intro h
        exact absurd h (by decide)
      · intro h
        exact absurd h h1
    · constructor
      · intro h
        exact absurd h (by decide)
      · intro h
        exact absurd h h1
  · unfold map_score_to_sentiment
    split_ifs with h1 h2
    · constructor
      · intro h
        exact absurd h (by decide)
      · intro h
        linarith
    · simp [h2]
    · constructor
      · intro h
        exact absurd h (by decide)
      · intro h
        exact absurd h h2
  · unfold map_score_to_sentiment
    split_ifs with h1 h2
    · constructor
      · intro h
        exact absurd h (by decide)
      · intro h
        linarith [h.1]
    · constructor
      · intro h
        exact absurd h (by decide)
      · intro h
        linarith [h.2]
    · constructor
      · intro _
        constructor
        · linarith [lt_of_not_le h1]
        · linarith [lt_of_not_le h2]
      · intro _
        rfl
  · unfold map_score_to_sentiment
    rw [if_pos le_rfl]
  · unfold map_score_to_sentiment
    rw [if_neg (by norm_num), if_pos (by norm_num)]

/-- C5: the probability synthesis reproduces the formulas of the spec for
each label, and in particular yields 0.9 for positive at normalized score 1
and 0.9 for negative at normalized score 0; the scorer builds its triple by
this synthesis from its own label and normalized score. -/
theorem c5_probability_synthesis_formulas :
    ∀ ns : ℚ,
      synthesizeProbabilities "negative" ns =
        ⟨0.6 + (1 - ns) * 0.3, 0.3 - (1 - ns) * 0.2, 0.1⟩ ∧
      synthesizeProbabilities "positive" ns =
        ⟨0.1, 0.3 - ns * 0.2, 0.6 + ns * 0.3⟩ ∧
      synthesizeProbabilities "neutral" ns = ⟨0.3, 0.4, 0.3⟩ ∧
      synthesizeProbabilities "positive" 1 = ⟨0.1, 0.1, 0.9⟩ ∧
      synthesizeProbabilities "negative" 0 = ⟨0.9, 0.1, 0.1⟩ ∧
      (∀ sc : ℚ, (mkResult sc).probs =
        synthesizeProbabilities (mkResult sc).label (mkResult sc).normalizedScore) := by
  intro ns
  refine ⟨?_, ?_, ?_, ?_, ?_, ?_⟩
  · unfold synthesizeProbabilities
    rw [if_pos rfl]
  · unfold synthesizeProbabilities
    rw [if_neg (by decide), if_pos rfl]
  · unfold synthesizeProbabilities
    rw [if_neg (by decide), if_neg (by decide)]
  · unfold synthesizeProbabilities
    rw [if_neg (by decide), if_pos rfl]
    simp only [ProbTriple.mk.injEq]
    norm_num
  · unfold synthesizeProbabilities
    rw [if_pos rfl]
    simp only [ProbTriple.mk.injEq]
    norm_num
  · intro sc
    rfl

/-- C1 counterexample: a truthy non-string input reaches len(text.strip())
before the try block, so analyze_sentiment raises instead of returning the
neutral default, for every classifier, here the one that always raises. -/
theorem c1_counterexample :
    analyze_sentiment (fun _ => Except.error ()) (PyVal.vint 5) =
      Except.error () := rfl

/-- C1 amended: for every falsy input (empty string, zero, None) and every
whitespace-only string, analyze_sentiment returns the fixed neutral default
for every classifier, so the classifier is never consulted; the non-string
inputs that are truthy instead raise, as c1_counterexample records. -/
theorem c1_blank_or_falsy_neutral_default (clf : Classifier) (v : PyVal)
    (h : pyFalsy v = true ∨ ∃ s, v = PyVal.vstr s ∧ pyStrip s = "") :
    analyze_sentiment clf v = Except.ok neutralDefault := by
  cases v with
  | vstr s =>
    rcases h with hf | ⟨t, ht, hstrip⟩
    · unfold analyze_sentiment
      rw [hf]
      simp
    · injection ht with hst
      subst hst
      by_cases he : s = ""
      · unfold analyze_sentiment
        rw [he]
        simp [pyFalsy]
      · unfold analyze_sentiment
        rw [pyFalsy_vstr_false he]
        simp [hstrip]
  | vint n =>
    rcases h with hf | ⟨t, ht, _⟩
    · unfold analyze_sentiment
      rw [hf]
      simp
    · exact absurd ht (by simp)
  | vrat q =>
    rcases h with hf | ⟨t, ht, _⟩
    · unfold analyze_sentiment
      rw [hf]
      simp
    · exact absurd ht (by simp)
  | vnone =>
    unfold analyze_sentiment
    simp [pyFalsy]

theorem c1_witness :
    (pyFalsy (PyVal.vstr " ") = true ∨
      ∃ s, PyVal.vstr " " = PyVal.vstr s ∧ pyStrip s = "") ∧
    analyze_sentiment (fun _ => Except.ok [[("5 stars", 1)]]) (PyVal.vstr " ") =
      Except.ok neutralDefault :=
  ⟨Or.inr ⟨" ", rfl, by decide⟩,
   c1_blank_or_falsy_neutral_default _ _ (Or.inr ⟨" ", rfl, by decide⟩)⟩

/-- C4: when the whole try block of analyze_sentiment fails, because the
classifier raised, returned a malformed response, or returned a label whose
first token is no integer, analyze_sentiment swallows the error and returns
the neutral default instead of propagating, so a batch continues. -/
theorem c4_classifier_failure_neutral_default (clf : Classifier) (s : String)
    (hs : pyStrip s ≠ "")
    (herr : classifier_pipeline clf (preprocess_emoji_text (PyVal.vstr s)) =
      Except.error ()) :
    analyze_sentiment clf (PyVal.vstr s) = Except.ok neutralDefault := by
  rw [analyze_sentiment_not_blank clf s hs, herr]

theorem c4_witness :
    (pyStrip "hola" ≠ "" ∧
      classifier_pipeline (fun _ => Except.error ())
        (preprocess_emoji_text (PyVal.vstr "hola")) = Except.error () ∧
      analyze_sentiment (fun _ => Except.error ()) (PyVal.vstr "hola") =
        Except.ok neutralDefault) ∧
    (classifier_pipeline (fun _ => Except.ok [[("LABEL_0", 1)]])
        (preprocess_emoji_text (PyVal.vstr "hola")) = Except.error () ∧
      analyze_sentiment (fun _ => Except.ok [[("LABEL_0", 1)]])
        (PyVal.vstr "hola") = Except.ok neutralDefault) :=
  ⟨⟨by decide, rfl,
    c4_classifier_failure_neutral_default _ "hola" (by decide) rfl⟩,
   ⟨rfl,
    c4_classifier_failure_neutral_default _ "hola" (by decide) rfl⟩⟩

/-- C7 counterexample: applying map_score_to_sentiment to the normalized
value 0.875 gives negative, not the neutral the claim announces, while the
raw weighted score 4.5 gives positive. -/
theorem c7_counterexample :
    map_score_to_sentiment ((9:ℚ)/2) = "positive" ∧
    map_score_to_sentiment (((9:ℚ)/2 - 1) / 4) = "negative" ∧
    map_score_to_sentiment (((9:ℚ)/2 - 1) / 4) ≠ "neutral" := by
  refine ⟨?_, ?_, ?_⟩
  · unfold map_score_to_sentiment
    rw [if_neg (by norm_num), if_pos (by norm_num)]
  · unfold map_score_to_sentiment
    rw [if_pos (by norm_num)]
  · unfold map_score_to_sentiment
    rw [if_pos (by norm_num)]
    decide

/-- C7 amended: on the normal path the label is map_score_to_sentiment of
the raw weighted score in the 1 to 5 scale, not of the normalized score; a
weighted score of 4.5 yields positive, whereas classifying the normalized
value 0.875 would yield negative. -/
theorem c7_label_from_raw_score (clf : Classifier) (s : String)
    (dist : List (String × ℚ)) (rest : List (List (String × ℚ))) (sc : ℚ)
    (hs : pyStrip s ≠ "")
    (hclf : clf (preprocess_emoji_text (PyVal.vstr s)) =
      Except.ok (dist :: rest))
    (hw : weightedScore dist = Except.ok sc) :
    analyze_sentiment clf (PyVal.vstr s) = Except.ok (mkResult sc) ∧
    (mkResult sc).label = map_score_to_sentiment sc := by
  constructor
  · rw [analyze_sentiment_not_blank clf s hs]
    unfold classifier_pipeline
    rw [hclf]
    simp [hw]
  · rfl

theorem c7_witness :
    (pyStrip "great" ≠ "" ∧
      clfTwoHalves (preprocess_emoji_text (PyVal.vstr "great")) =
        Except.ok ([("4 stars", mkRat 1 2), ("5 stars", mkRat 1 2)] ::
          ([] : List (List (String × ℚ)))) ∧
      weightedScore [("4 stars", mkRat 1 2), ("5 stars", mkRat 1 2)] =
        Except.ok (mkRat 9 2)) ∧
    analyze_sentiment clfTwoHalves (PyVal.vstr "great") =
      Except.ok (mkResult (mkRat 9 2)) ∧
    (mkResult (mkRat 9 2)).label = map_score_to_sentiment (mkRat 9 2) :=
  ⟨⟨by decide, rfl, by with_unfolding_all rfl⟩,
   c7_label_from_raw_score clfTwoHalves "great" _ _ _ (by decide) rfl
     (by with_unfolding_all rfl)⟩

/-- C3: on the normal path a 5-class star distribution with nonnegative
probabilities summing to 1 yields the weighted score sum of stars times
probability, which lies in the 1 to 5 range; the normalized score is the
linear rescaling to 0 to 1, with 1 mapping to exactly 0 and 5 to exactly 1. -/
theorem c3_weighted_score_and_normalization (p1 p2 p3 p4 p5 sc : ℚ)
    (h1 : 0 ≤ p1) (h2 : 0 ≤ p2) (h3 : 0 ≤ p3) (h4 : 0 ≤ p4) (h5 : 0 ≤ p5)
    (hsum : p1 + p2 + p3 + p4 + p5 = 1)
    (hsc : sc = 1 * p1 + 2 * p2 + 3 * p3 + 4 * p4 + 5 * p5) :
    weightedScore
        [("1 star", p1), ("2 stars", p2), ("3 stars", p3),
         ("4 stars", p4), ("5 stars", p5)] = Except.ok sc ∧
    1 ≤ sc ∧ sc ≤ 5 ∧
    (mkResult sc).normalizedScore = (sc - 1) / 4 ∧
    0 ≤ (mkResult sc).normalizedScore ∧ (mkResult sc).normalizedScore ≤ 1 ∧
    (mkResult 1).normalizedScore = 0 ∧ (mkResult 5).normalizedScore = 1 := by
  have e1 : starsOfLabel "1 star" = some 1 := by decide
  have e2 : starsOfLabel "2 stars" = some 2 := by decide
  have e3 : starsOfLabel "3 stars" = some 3 := by decide
  have e4 : starsOfLabel "4 stars" = some 4 := by decide
  have e5 : starsOfLabel "5 stars" = some 5 := by decide
  have hlo : 1 ≤ sc := by rw [hsc]; linarith
  have hhi : sc ≤ 5 := by rw [hsc]; linarith
  refine ⟨?_, hlo, hhi, rfl, ?_, ?_, ?_, ?_⟩
  · simp only [weightedScore, List.foldlM, e1, e2, e3, e4, e5]
    have : ((0:ℚ) + (1:ℤ) * p1 + (2:ℤ) * p2 + (3:ℤ) * p3 + (4:ℤ) * p4
        + (5:ℤ) * p5) = sc := by
      rw [hsc]; push_cast; ring
    rw [← this]
    rfl
  · show (0:ℚ) ≤ (sc - 1) / 4
    linarith
  · show (sc - 1) / 4 ≤ 1
    linarith
  · show ((1:ℚ) - 1) / 4 = 0
    norm_num
  · show ((5:ℚ) - 1) / 4 = 1
    norm_num

theorem c3_witness :
    ((0:ℚ) ≤ 0 ∧ (0:ℚ) ≤ 0 ∧ (0:ℚ) ≤ 0 ∧ (0:ℚ) ≤ 0 ∧ (0:ℚ) ≤ 1 ∧
      (0:ℚ) + 0 + 0 + 0 + 1 = 1 ∧
      (5:ℚ) = 1 * 0 + 2 * 0 + 3 * 0 + 4 * 0 + 5 * 1) ∧
    weightedScore
        [("1 star", 0), ("2 stars", 0), ("3 stars", 0),
         ("4 stars", 0), ("5 stars", 1)] = Except.ok 5 ∧
    (1:ℚ) ≤ 5 ∧ (5:ℚ) ≤ 5 ∧
    (mkResult 5).normalizedScore = ((5:ℚ) - 1) / 4 ∧
    0 ≤ (mkResult 5).normalizedScore ∧ (mkResult 5).normalizedScore ≤ 1 ∧
    (mkResult 1).normalizedScore = 0 ∧ (mkResult 5).normalizedScore = 1 :=
  ⟨⟨by norm_num, by norm_num, by norm_num, by norm_num, by norm_num,
    by norm_num, by norm_num⟩,
   c3_weighted_score_and_normalization 0 0 0 0 1 5
     (by norm_num) (by norm_num) (by norm_num) (by norm_num) (by norm_num)
     (by norm_num) (by norm_num)⟩

/-- C9: for a weighted score between 1 and 5, every component of the
synthesized triple lies between 0 and 1; the components sum to exactly 1
for the neutral label, to 1 plus a tenth of 1 minus the normalized score
for negative, to 1 plus a tenth of the normalized score for positive, and
the sum always lies between 1 and 1.1. -/
theorem c9_prob_triple_bounds_and_sum (sc : ℚ) (hlo : 1 ≤ sc) (hhi : sc ≤ 5) :
    (0 ≤ (mkResult sc).probs.negative ∧ (mkResult sc).probs.negative ≤ 1) ∧
    (0 ≤ (mkResult sc).probs.neutral ∧ (mkResult sc).probs.neutral ≤ 1) ∧
    (0 ≤ (mkResult sc).probs.positive ∧ (mkResult sc).probs.positive ≤ 1) ∧
    ((mkResult sc).label = "neutral" → probSum (mkResult sc).probs = 1) ∧
    ((mkResult sc).label = "negative" →
      probSum (mkResult sc).probs =
        1 + (1 - (mkResult sc).normalizedScore) * 0.1) ∧
    ((mkResult sc).label = "positive" →
      probSum (mkResult sc).probs = 1 + (mkResult sc).normalizedScore * 0.1) ∧
    1 ≤ probSum (mkResult sc).probs ∧ probSum (mkResult sc).probs ≤ 1.1 := by
  have hns : (mkResult sc).normalizedScore = (sc - 1) / 4 := rfl
  by_cases hneg : sc ≤ 2
  · have hlab : (mkResult sc).label = "negative" := by
      simp [mkResult, map_score_to_sentiment, hneg]
    have hprobs : (mkResult sc).probs =
        ⟨0.6 + (1 - (sc - 1) / 4) * 0.3, 0.3 - (1 - (sc - 1) / 4) * 0.2, 0.1⟩ := by
      simp [mkResult, synthesizeProbabilities, map_score_to_sentiment, hneg]
    rw [hlab, hprobs, hns]
    simp only [probSum]
    refine ⟨⟨by norm_num; linarith, by norm_num; linarith⟩,
      ⟨by norm_num; linarith, by norm_num; linarith⟩,
      ⟨by norm_num, by norm_num⟩,
      ?_, ?_, ?_, by norm_num; linarith, by norm_num; linarith⟩
    · intro hbad
      exact absurd hbad (by decide)
    · intro _
      norm_num
      ring
    · intro hbad
      exact absurd hbad (by decide)
  · by_cases hpos : (4:ℚ) ≤ sc
    · have hlab : (mkResult sc).label = "positive" := by
        simp [mkResult, map_score_to_sentiment, hneg, hpos]
      have hprobs : (mkResult sc).probs =
          ⟨0.1, 0.3 - (sc - 1) / 4 * 0.2, 0.6 + (sc - 1) / 4 * 0.3⟩ := by
        simp [mkResult, synthesizeProbabilities, map_score_to_sentiment,
          hneg, hpos]
      rw [hlab, hprobs, hns]
      simp only [probSum]
      refine ⟨⟨by norm_num, by norm_num⟩,
        ⟨by norm_num; linarith, by norm_num; linarith⟩,
        ⟨by norm_num; linarith, by norm_num; linarith⟩,
        ?_, ?_, ?_, by norm_num; linarith, by norm_num; linarith⟩
      · intro hbad
        exact absurd hbad (by decide)
      · intro hbad
        exact absurd hbad (by decide)
      · intro _
        norm_num
        ring
    · have hlab : (mkResult sc).label = "neutral" := by
        simp [mkResult, map_score_to_sentiment, hneg, hpos]
      have hprobs : (mkResult sc).probs = ⟨0.3, 0.4, 0.3⟩ := by
        simp [mkResult, synthesizeProbabilities, map_score_to_sentiment,
          hneg, hpos]
      rw [hlab, hprobs]
      simp only [probSum]
      refine ⟨⟨by norm_num, by norm_num⟩, ⟨by norm_num, by norm_num⟩,
        ⟨by norm_num, by norm_num⟩, ?_, ?_, ?_, by norm_num, by norm_num⟩
      · intro _
        norm_num
      · intro hbad
        exact absurd hbad (by decide)
      · intro hbad
        exact absurd hbad (by decide)

theorem c9_witness :
    ((1:ℚ) ≤ 3 ∧ (3:ℚ) ≤ 5) ∧
    ((0 ≤ (mkResult 3).probs.negative ∧ (mkResult 3).probs.negative ≤ 1) ∧
    (0 ≤ (mkResult 3).probs.neutral ∧ (mkResult 3).probs.neutral ≤ 1) ∧
    (0 ≤ (mkResult 3).probs.positive ∧ (mkResult 3).probs.positive ≤ 1) ∧
    ((mkResult 3).label = "neutral" → probSum (mkResult 3).probs = 1) ∧
    ((mkResult 3).label = "negative" →
      probSum (mkResult 3).probs =
        1 + (1 - (mkResult 3).normalizedScore) * 0.1) ∧
    ((mkResult 3).label = "positive" →
      probSum (mkResult 3).probs = 1 + (mkResult 3).normalizedScore * 0.1) ∧
    1 ≤ probSum (mkResult 3).probs ∧ probSum (mkResult 3).probs ≤ 1.1) :=
  ⟨⟨by norm_num, by norm_num⟩,
   c9_prob_triple_bounds_and_sum 3 (by norm_num) (by norm_num)⟩

theorem replace_removes_old (old new : Char) (l : List Char) (h : new ≠ old) :
    old ∉ l.map (fun x => if x = old then new else x) := by
  intro hm
  rcases List.mem_map.1 hm with ⟨x, _, hfx⟩
  by_cases hxo : x = old
  · rw [if_pos hxo] at hfx
    exact h hfx
  · rw [if_neg hxo] at hfx
    exact hxo hfx

theorem replace_keeps_not_mem (c old new : Char) (l : List Char)
    (hnew : new ≠ c) (h : c ∉ l) :
    c ∉ l.map (fun x => if x = old then new else x) := by
  intro hm
  rcases List.mem_map.1 hm with ⟨x, hx, hfx⟩
  by_cases hxo : x = old
  · rw [if_pos hxo] at hfx
    exact hnew hfx
  · rw [if_neg hxo] at hfx
    exact h (hfx ▸ hx)

theorem data_replaceChar (old new : Char) (s : String) :
    (replaceChar old new s).data = s.data.map (fun x => if x = old then new else x) :=
  rfl

/-- C6: the text normalizer is total, sends every non-string value to the
empty string, and for every string input its output contains neither a
colon nor an underscore character. -/
theorem c6_normalizer_total_no_delimiters :
    ∀ (n : Int) (q : ℚ) (s : String),
      preprocess_emoji_text (PyVal.vint n) = "" ∧
      preprocess_emoji_text (PyVal.vrat q) = "" ∧
      preprocess_emoji_text PyVal.vnone = "" ∧
      ':' ∉ (preprocess_emoji_text (PyVal.vstr s)).data ∧
      '_' ∉ (preprocess_emoji_text (PyVal.vstr s)).data := by
  intro n q s
  refine ⟨rfl, rfl, rfl, ?_, ?_⟩
  · show ':' ∉ (replaceChar '_' ' '
      (replaceChar ':' ' ' (demojize emojiTable s))).data
    rw [data_replaceChar, data_replaceChar]
    exact replace_keeps_not_mem ':' '_' ' ' _ (by decide)
      (replace_removes_old ':' ' ' _ (by decide))
  · show '_' ∉ (replaceChar '_' ' '
      (replaceChar ':' ' ' (demojize emojiTable s))).data
    rw [data_replaceChar]
    exact replace_removes_old '_' ' ' _ (by decide)

theorem demojizeChars_id (table : List (Char × String)) (l : List Char)
    (h : ∀ c ∈ l, c ∉ table.map Prod.fst) :
    demojizeChars table l = l := by
  induction l with
  | nil => rfl
  | cons c cs ih =>
    have hc : c ∉ table.map Prod.fst := h c (List.mem_cons_self c cs)
    have hfind : table.find? (fun p => p.1 == c) = none := by
      rw [List.find?_eq_none]
      intro p hp hbeq
      exact hc (List.mem_map.2 ⟨p, hp, beq_iff_eq.1 hbeq⟩)
    unfold demojizeChars
    rw [hfind, ih (fun x hx => h x (List.mem_cons_of_mem c hx))]

theorem map_id_of_not_mem (old new : Char) (l : List Char) (h : old ∉ l) :
    l.map (fun x => if x = old then new else x) = l := by
  have : l.map (fun x => if x = old then new else x) = l.map id := by
    apply List.map_congr_left
    intro a ha
    have : a ≠ old := fun hao => h (hao ▸ ha)
    simp [this]
  rw [this, List.map_id]

/-- C10: on a string with no emoji glyph of the table, no colon and no
underscore, the text normalizer is the identity. -/
theorem c10_identity_on_plain_text (s : String)
    (hemoji : ∀ c ∈ s.data, c ∉ emojiTable.map Prod.fst)
    (hcolon : ':' ∉ s.data) (hund : '_' ∉ s.data) :
    preprocess_emoji_text (PyVal.vstr s) = s := by
  show replaceChar '_' ' ' (replaceChar ':' ' ' (demojize emojiTable s)) = s
  have hd : demojize emojiTable s = s := by
    unfold demojize
    rw [demojizeChars_id emojiTable s.data hemoji]
  rw [hd]
  unfold replaceChar
  rw [map_id_of_not_mem ':' ' ' s.data hcolon]
  have hmk : (String.mk s.data) = s := by cases s; rfl
  rw [hmk, map_id_of_not_mem '_' ' ' s.data hund, hmk]

theorem c10_witness :
    ((∀ c ∈ ("hola").data, c ∉ emojiTable.map Prod.fst) ∧
      ':' ∉ ("hola").data ∧ '_' ∉ ("hola").data) ∧
    preprocess_emoji_text (PyVal.vstr "hola") = "hola" :=
  ⟨⟨by decide, by decide, by decide⟩,
   c10_identity_on_plain_text "hola" (by decide) (by decide) (by decide)⟩

theorem mapM_analyze_ok (clf : Classifier) (l : List String) :
    l.mapM (fun c => analyze_sentiment clf (PyVal.vstr c)) =
      Except.ok (l.map (analyze_str clf)) := by
  induction l with
  | nil => rfl
  | cons c cs ih =>
    rw [List.mapM_cons, analyze_sentiment_vstr, ih]
    rfl

theorem any_map_replace (ps : Cols) (n m : String) (v : List PyVal) :
    (ps.map (fun p => if p.1 == n then (n, v) else p)).any
        (fun p => p.1 == m) =
      ps.any (fun p => p.1 == m) := by
  induction ps with
  | nil => rfl
  | cons p ps ih =>
    cases hbeq : (p.1 == n) with
    | true =>
      have hb : p.1 = n := by simpa using hbeq
      have hhead : (if p.1 == n then (n, v) else p) = (n, v) := by
        rw [hbeq]
        rfl
      rw [List.map_cons, hhead, List.any_cons, List.any_cons, ih, hb]
    | false =>
      have hhead : (if p.1 == n then (n, v) else p) = p := by
        rw [hbeq]
        rfl
      rw [List.map_cons, hhead, List.any_cons, List.any_cons, ih]

theorem find?_map_replace (ps : Cols) (n : String) (v : List PyVal) :
    (ps.map (fun p => if p.1 == n then (n, v) else p)).find?
        (fun p => p.1 == n) =
      if ps.any (fun p => p.1 == n) then some (n, v) else none := by
  induction ps with
  | nil => rfl
  | cons p ps ih =>
    cases hbeq : (p.1 == n) with
    | true =>
      have hhead : (if p.1 == n then (n, v) else p) = (n, v) := by
        rw [hbeq]
        rfl
      rw [List.map_cons, hhead,
        @List.find?_cons_of_pos _ (fun q => q.1 == n) (n, v) _ (by simp),
        List.any_cons, hbeq]
      rfl
    | false =>
      have hhead : (if p.1 == n then (n, v) else p) = p := by
        rw [hbeq]
        rfl
      rw [List.map_cons, hhead,
        @List.find?_cons_of_neg _ (fun q => q.1 == n) p _ (by simp [hbeq]), ih,
        List.any_cons, hbeq, Bool.false_or]

theorem find?_map_replace_other (ps : Cols) (n m : String) (v : List PyVal)
    (hmn : m ≠ n) :
    (ps.map (fun p => if p.1 == n then (n, v) else p)).find?
        (fun p => p.1 == m) =
      ps.find? (fun p => p.1 == m) := by
  induction ps with
  | nil => rfl
  | cons p ps ih =>
    cases hbeq : (p.1 == n) with
    | true =>
      have hb : p.1 = n := by simpa using hbeq
      have hhead : (if p.1 == n then (n, v) else p) = (n, v) := by
        rw [hbeq]
        rfl
      have hnm : ¬ (((n, v) : String × List PyVal).1 == m) = true := by
        simp
        exact fun h => hmn h.symm
      have hpm : ¬ (p.1 == m) = true := by
        simpa [hb] using hnm
      rw [List.map_cons, hhead,
        @List.find?_cons_of_neg _ (fun q => q.1 == m) (n, v) _ hnm, ih,
        @List.find?_cons_of_neg _ (fun q => q.1 == m) p _ hpm]
    | false =>
      have hhead : (if p.1 == n then (n, v) else p) = p := by
        rw [hbeq]
        rfl
      rw [List.map_cons, hhead]
      cases hpm : (p.1 == m) with
      | true =>
        rw [@List.find?_cons_of_pos _ (fun q => q.1 == m) p _ hpm,
          @List.find?_cons_of_pos _ (fun q => q.1 == m) p _ hpm]
      | false =>
        rw [@List.find?_cons_of_neg _ (fun q => q.1 == m) p _ (by simp [hpm]),
          @List.find?_cons_of_neg _ (fun q => q.1 == m) p _ (by simp [hpm]), ih]

theorem setCol_present (cols : Cols) (n : String) (v : List PyVal)
    (h : cols.any (fun p => p.1 == n) = true) :
    setCol cols n v = cols.map (fun p => if p.1 == n then (n, v) else p) := by
  unfold setCol
  rw [if_pos h]

theorem setCol_absent (cols : Cols) (n : String) (v : List PyVal)
    (h : cols.any (fun p => p.1 == n) = false) :
    setCol cols n v = cols ++ [(n, v)] := by
  unfold setCol
  rw [if_neg (by rw [h]; exact Bool.false_ne_true)]

theorem find?_none_of_any_false (cols : Cols) (m : String)
    (h : cols.any (fun p => p.1 == m) = false) :
    cols.find? (fun p => p.1 == m) = none := by
  rw [List.find?_eq_none]
  intro x hx hbx
  exact absurd hbx (List.any_eq_false.1 h x hx)

theorem getCol_setCol_self (cols : Cols) (n : String) (v : List PyVal) :
    getCol (setCol cols n v) n = v := by
  by_cases hp : cols.any (fun p => p.1 == n) = true
  · rw [setCol_present cols n v hp]
    unfold getCol
    rw [find?_map_replace, if_pos hp]
  · have hp2 : cols.any (fun p => p.1 == n) = false :=
      Bool.eq_false_iff.2 hp
    rw [setCol_absent cols n v hp2]
    unfold getCol
    rw [List.find?_append, find?_none_of_any_false cols n hp2]
    simp [List.find?_cons]

theorem getCol_setCol_other (cols : Cols) (n m : String) (v : List PyVal)
    (hmn : m ≠ n) :
    getCol (setCol cols n v) m = getCol cols m := by
  by_cases hp : cols.any (fun p => p.1 == n) = true
  · rw [setCol_present cols n v hp]
    unfold getCol
    rw [find?_map_replace_other cols n m v hmn]
  · have hp2 : cols.any (fun p => p.1 == n) = false :=
      Bool.eq_false_iff.2 hp
    rw [setCol_absent cols n v hp2]
    unfold getCol
    rw [List.find?_append]
    have hnm : (n == m) = false := by
      simp
      exact fun h => hmn h.symm
    cases hf : cols.find? (fun p => p.1 == m) with
    | some x => simp
    | none => simp [List.find?_cons, hnm]

theorem getCol_append_left (l1 l2 : Cols) (name : String)
    (h : l1.any (fun p => p.1 == name) = true) :
    getCol (l1 ++ l2) name = getCol l1 name := by
  unfold getCol
  rw [List.find?_append]
  rcases List.any_eq_true.1 h with ⟨x, hx, hbx⟩
  have hsome : (l1.find? (fun p => p.1 == name)).isSome :=
    List.find?_isSome.2 ⟨x, hx, hbx⟩
  cases hf : l1.find? (fun p => p.1 == name) with
  | some y => simp
  | none =>
    rw [hf] at hsome
    simp at hsome

theorem getCol_append_right (l1 l2 : Cols) (name : String)
    (h : l1.any (fun p => p.1 == name) = false) :
    getCol (l1 ++ l2) name = getCol l2 name := by
  unfold getCol
  rw [List.find?_append, find?_none_of_any_false l1 name h]
  simp

theorem getCol_cons_hit (name : String) (vals : List PyVal) (rest : Cols) :
    getCol ((name, vals) :: rest) name = vals := by
  unfold getCol
  simp [List.find?_cons]

theorem getCol_cons_miss (name m : String) (vals : List PyVal) (rest : Cols)
    (h : m ≠ name) :
    getCol ((name, vals) :: rest) m = getCol rest m := by
  unfold getCol
  have hnm : (name == m) = false := by
    simp
    exact fun he => h he.symm
  simp [List.find?_cons, hnm]

theorem setCol_chain (base : Cols) (v1 v2 v3 v4 v5 : List PyVal)
    (hs : base.any (fun p => p.1 == "sentiment") = false)
    (hc : base.any (fun p => p.1 == "confidence") = false)
    (hpn : base.any (fun p => p.1 == "prob_negative") = false)
    (hpu : base.any (fun p => p.1 == "prob_neutral") = false)
    (hpp : base.any (fun p => p.1 == "prob_positive") = false) :
    setCol (setCol (setCol (setCol (setCol base "sentiment" v1)
        "confidence" v2) "prob_negative" v3) "prob_neutral" v4)
      "prob_positive" v5 =
      base ++ [("sentiment", v1), ("confidence", v2), ("prob_negative", v3),
        ("prob_neutral", v4), ("prob_positive", v5)] := by
  rw [setCol_absent base "sentiment" v1 hs]
  rw [setCol_absent (base ++ [("sentiment", v1)]) "confidence" v2 (by
    rw [List.any_append, hc]
    simp)]
  rw [setCol_absent (base ++ [("sentiment", v1)] ++ [("confidence", v2)])
    "prob_negative" v3 (by
    rw [List.any_append, List.any_append, hpn]
    simp)]
  rw [setCol_absent (base ++ [("sentiment", v1)] ++ [("confidence", v2)] ++
      [("prob_negative", v3)]) "prob_neutral" v4 (by
    rw [List.any_append, List.any_append, List.any_append, hpu]
    simp)]
  rw [setCol_absent (base ++ [("sentiment", v1)] ++ [("confidence", v2)] ++
      [("prob_negative", v3)] ++ [("prob_neutral", v4)]) "prob_positive" v5 (by
    rw [List.any_append, List.any_append, List.any_append, List.any_append, hpp]
    simp)]
  simp only [List.append_assoc, List.cons_append, List.nil_append]

/-- C8 counterexample: process_file_core does not leave every pre-existing
column unchanged: astype(str) rewrites the comment column, so an integer
comment 5 comes back as the string 5 in the output table. -/
theorem c8_counterexample :
    process_file_core (fun _ => Except.error ())
        [("comment", [PyVal.vint 5])] "comment" =
      Except.ok [("comment", [PyVal.vstr "5"]),
        ("sentiment", [PyVal.vstr "neutral"]),
        ("confidence", [PyVal.vrat 0.5]),
        ("prob_negative", [PyVal.vrat 0.33]),
        ("prob_neutral", [PyVal.vrat 0.34]),
        ("prob_positive", [PyVal.vrat 0.33])] ∧
    PyVal.vstr "5" ≠ PyVal.vint 5 :=
  ⟨rfl, by decide⟩

/-- C8 amended: when the comment column exists and none of the five result
names is already a column, the output is the input table with the comment
column coerced to strings by astype(str) followed by exactly the five new
result columns, row i of each new column scored from row i of the coerced
comment column; every pre-existing column other than the comment column is
unchanged. -/
theorem c8_batch_frame (clf : Classifier) (cols : Cols) (comment_col : String)
    (hcc : cols.any (fun p => p.1 == comment_col) = true)
    (hs : cols.any (fun p => p.1 == "sentiment") = false)
    (hc : cols.any (fun p => p.1 == "confidence") = false)
    (hpn : cols.any (fun p => p.1 == "prob_negative") = false)
    (hpu : cols.any (fun p => p.1 == "prob_neutral") = false)
    (hpp : cols.any (fun p => p.1 == "prob_positive") = false) :
    process_file_core clf cols comment_col =
      Except.ok (process_file_spec clf cols comment_col) ∧
    (∀ name, cols.any (fun p => p.1 == name) = true → name ≠ comment_col →
      getCol (process_file_spec clf cols comment_col) name = getCol cols name) ∧
    getCol (process_file_spec clf cols comment_col) comment_col =
      ((getCol cols comment_col).map pyStr).map PyVal.vstr ∧
    getCol (process_file_spec clf cols comment_col) "sentiment" =
      (((getCol cols comment_col).map pyStr).map (analyze_str clf)).map
        (fun r => PyVal.vstr r.label) ∧
    getCol (process_file_spec clf cols comment_col) "confidence" =
      (((getCol cols comment_col).map pyStr).map (analyze_str clf)).map
        (fun r => PyVal.vrat r.normalizedScore) ∧
    getCol (process_file_spec clf cols comment_col) "prob_negative" =
      (((getCol cols comment_col).map pyStr).map (analyze_str clf)).map
        (fun r => PyVal.vrat r.probs.negative) ∧
    getCol (process_file_spec clf cols comment_col) "prob_neutral" =
      (((getCol cols comment_col).map pyStr).map (analyze_str clf)).map
        (fun r => PyVal.vrat r.probs.neutral) ∧
    getCol (process_file_spec clf cols comment_col) "prob_positive" =
      (((getCol cols comment_col).map pyStr).map (analyze_str clf)).map
        (fun r => PyVal.vrat r.probs.positive) := by
  have hspec : process_file_spec clf cols comment_col =
      setCol cols comment_col
          (((getCol cols comment_col).map pyStr).map PyVal.vstr) ++
        [("sentiment",
          (((getCol cols comment_col).map pyStr).map (analyze_str clf)).map
            (fun r => PyVal.vstr r.label)),
         ("confidence",
          (((getCol cols comment_col).map pyStr).map (analyze_str clf)).map
            (fun r => PyVal.vrat r.normalizedScore)),
         ("prob_negative",
          (((getCol cols comment_col).map pyStr).map (analyze_str clf)).map
            (fun r => PyVal.vrat r.probs.negative)),
         ("prob_neutral",
          (((getCol cols comment_col).map pyStr).map (analyze_str clf)).map
            (fun r => PyVal.vrat r.probs.neutral)),
         ("prob_positive",
          (((getCol cols comment_col).map pyStr).map (analyze_str clf)).map
            (fun r => PyVal.vrat r.probs.positive))] := rfl
  have a1 : ∀ m,
      (setCol cols comment_col
        (((getCol cols comment_col).map pyStr).map PyVal.vstr)).any
          (fun p => p.1 == m) =
        cols.any (fun p => p.1 == m) := by
    intro m
    rw [setCol_present cols comment_col _ hcc]
    exact any_map_replace cols comment_col m _
  refine ⟨?_, ?_, ?_, ?_, ?_, ?_, ?_, ?_⟩
  · have hmapM := mapM_analyze_ok clf ((getCol cols comment_col).map pyStr)
    unfold process_file_core
    simp only []
    rw [hmapM]
    show Except.ok _ = Except.ok _
    rw [hspec]
    refine congrArg Except.ok ?_
    exact setCol_chain _ _ _ _ _ _
      ((a1 "sentiment").trans hs)
      ((a1 "confidence").trans hc)
      ((a1 "prob_negative").trans hpn)
      ((a1 "prob_neutral").trans hpu)
      ((a1 "prob_positive").trans hpp)
  · intro name hname hneq
    rw [hspec, getCol_append_left _ _ name ((a1 name).trans hname)]
    exact getCol_setCol_other cols comment_col name _ hneq
  · rw [hspec, getCol_append_left _ _ comment_col ((a1 comment_col).trans hcc)]
    exact getCol_setCol_self cols comment_col _
  · rw [hspec, getCol_append_right _ _ "sentiment" ((a1 "sentiment").trans hs)]
    exact getCol_cons_hit _ _ _
  · rw [hspec, getCol_append_right _ _ "confidence" ((a1 "confidence").trans hc)]
    rw [getCol_cons_miss _ "confidence" _ _ (by decide)]
    exact getCol_cons_hit _ _ _
  · rw [hspec,
      getCol_append_right _ _ "prob_negative" ((a1 "prob_negative").trans hpn)]
    rw [getCol_cons_miss _ "prob_negative" _ _ (by decide)]
    rw [getCol_cons_miss _ "prob_negative" _ _ (by decide)]
    exact getCol_cons_hit _ _ _
  · rw [hspec,
      getCol_append_right _ _ "prob_neutral" ((a1 "prob_neutral").trans hpu)]
    rw [getCol_cons_miss _ "prob_neutral" _ _ (by decide)]
    rw [getCol_cons_miss _ "prob_neutral" _ _ (by decide)]
    rw [getCol_cons_miss _ "prob_neutral" _ _ (by decide)]
    exact getCol_cons_hit _ _ _
  · rw [hspec,
      getCol_append_right _ _ "prob_positive" ((a1 "prob_positive").trans hpp)]
    rw [getCol_cons_miss _ "prob_positive" _ _ (by decide)]
    rw [getCol_cons_miss _ "prob_positive" _ _ (by decide)]
    rw [getCol_cons_miss _ "prob_positive" _ _ (by decide)]
    rw [getCol_cons_miss _ "prob_positive" _ _ (by decide)]
    exact getCol_cons_hit _ _ _

theorem c8_witness :
    (([("comment", [PyVal.vstr "ok"]), ("id", [PyVal.vint 1])] : Cols).any
        (fun p => p.1 == "comment") = true ∧
      ([("comment", [PyVal.vstr "ok"]), ("id", [PyVal.vint 1])] : Cols).any
        (fun p => p.1 == "sentiment") = false ∧
      ([("comment", [PyVal.vstr "ok"]), ("id", [PyVal.vint 1])] : Cols).any
        (fun p => p.1 == "confidence") = false ∧
      ([("comment", [PyVal.vstr "ok"]), ("id", [PyVal.vint 1])] : Cols).any
        (fun p => p.1 == "prob_negative") = false ∧
      ([("comment", [PyVal.vstr "ok"]), ("id", [PyVal.vint 1])] : Cols).any
        (fun p => p.1 == "prob_neutral") = false ∧
      ([("comment", [PyVal.vstr "ok"]), ("id", [PyVal.vint 1])] : Cols).any
        (fun p => p.1 == "prob_positive") = false) ∧
    process_file_core (fun _ => Except.error ())
        [("comment", [PyVal.vstr "ok"]), ("id", [PyVal.vint 1])] "comment" =
      Except.ok (process_file_spec (fun _ => Except.error ())
        [("comment", [PyVal.vstr "ok"]), ("id", [PyVal.vint 1])] "comment") :=
  ⟨⟨by decide, by decide, by decide, by decide, by decide, by decide⟩,
   (c8_batch_frame (fun _ => Except.error ())
     [("comment", [PyVal.vstr "ok"]), ("id", [PyVal.vint 1])] "comment"
     (by decide) (by decide) (by decide) (by decide) (by decide)
     (by decide)).1⟩
